import Mathlib

/-!
Verification of the SIM808 softphone controller (`sim808_controller.py`).

This file gives a shallow embedding of the controller's data model and
operations in Lean 4 and proves (or refutes) the specified properties.

Modelling conventions:
* Python strings are Lean `String` / `List Char`.
* The serial transport is a `SerialPort` record holding its unread input
  bytes (`pending`) and whether it is open; data that arrives while a
  command is waiting for a reply is supplied as an environment
  `List String` of chunks, one chunk per successful `read(in_waiting)`.
* Python `None`-able return values are `Option`-valued.
* Transport side effects are recorded as an explicit operation trace
  (`TOp`): buffer reset, write, read.
* Callbacks are identified by a `Nat` id with a `Bool` saying whether the
  callback raises when invoked; events delivered to callbacks are recorded
  together with the controller state at dispatch time.
* Python `str.upper` on one-character strings is modelled by
  `Char.toUpper` (they agree on the ASCII repertoire relevant here).
* Python `\s` in regexes is modelled by `Char.isWhitespace`
  (space, tab, CR, LF).
-/

/-- Characters of the serial port's underlying state: unread input bytes and
the open flag. -/
structure SerialPort where
  pending : String
  isOpen : Bool
deriving DecidableEq, Repr

/-- State of `SIM808Controller` (fields named as in the Python source). -/
structure Controller where
  port : Option String
  baudrate : Nat
  is_connected : Bool
  monitoring : Bool
  monitor_thread : Bool
  serial_conn : Option SerialPort
  current_call_status : Option String
  incoming_call_number : Option String
  status_callbacks : List (Nat × Bool)
deriving DecidableEq, Repr

/-- `SIM808Controller.__init__`. -/
def initController (port : Option String) : Controller :=
  { port := port, baudrate := 115200, is_connected := false,
    monitoring := false, monitor_thread := false, serial_conn := none,
    current_call_status := none, incoming_call_number := none,
    status_callbacks := [] }

/-- Transport operations performed by a code path, in order. -/
inductive TOp where
  | resetInput
  | write (data : String)
  | read
deriving DecidableEq, Repr

/-- Event kinds dispatched to status callbacks. -/
inductive EvKind where
  | incoming_call
  | call_ended
  | call_busy
  | call_status
deriving DecidableEq, Repr

/-- Parsed call information (the dict built from a `+CLCC` match). -/
structure CallInfo where
  id : Nat
  direction : String
  status : String
  number : Option String
  mode : String
  mpty : Bool
deriving DecidableEq, Repr

/-- Payload of a dispatched event. -/
inductive EvData where
  | numberData (n : Option String)
  | emptyData
  | callData (c : CallInfo)
deriving DecidableEq, Repr

/-- A dispatched event together with the controller state at the moment
`_notify_callbacks` is invoked (what an observer reading the controller
during the callback sees). -/
structure DEvent where
  kind : EvKind
  data : EvData
  snap : Controller
deriving DecidableEq, Repr

/-! ### String helpers (Python substring test and `str.strip`) -/

/-- Does `pat` occur at the head of the list? -/
def startsWithL (pat : List Char) : List Char → Bool :=
  fun cs =>
    match pat, cs with
    | [], _ => true
    | _ :: _, [] => false
    | p :: ps, c :: rest => p == c && startsWithL ps rest

/-- Does `pat` occur anywhere in the list (Python `pat in s`)? -/
def containsL (pat : List Char) : List Char → Bool
  | [] => startsWithL pat []
  | c :: cs => startsWithL pat (c :: cs) || containsL pat cs

/-- Python `pat in s` on strings. -/
def strContains (s pat : String) : Bool := containsL pat.toList s.toList

/-- Python `s.strip()`: remove leading and trailing whitespace. -/
def pyStrip (s : String) : String :=
  String.mk (((s.toList.dropWhile Char.isWhitespace).reverse.dropWhile
    Char.isWhitespace).reverse)

/-! ### `send_command` -/

/-- The read loop of `send_command` (lines 121-127): repeatedly read the
waiting bytes (one environment chunk per read), stopping as soon as the
accumulated response contains `OK` or `ERROR`; chunks never delivered
within the timeout window simply do not appear in `env` (their absence is
the timeout). Returns the accumulated bytes and the number of reads. -/
def readLoop : List String → String → String × Nat
  | [], acc => (acc, 0)
  | c :: cs, acc =>
    let acc2 := acc ++ c
    if strContains acc2 "OK" || strContains acc2 "ERROR" then (acc2, 1)
    else
      let r := readLoop cs acc2
      (r.1, r.2 + 1)

/-- Result of `send_command`: Python return value, post controller state,
transport operation trace, and events dispatched to callbacks during the
call (command sending never dispatches events). -/
structure SendRes where
  ret : Option String
  st : Controller
  ops : List TOp
  events : List DEvent
deriving DecidableEq, Repr

/-- `serial_conn.reset_input_buffer()`: discard unread input bytes. -/
def clearPending (st : Controller) : Controller :=
  { st with serial_conn := st.serial_conn.map (fun sp => { sp with pending := "" }) }

/-- `SIM808Controller.send_command` (lines 91-143). Refuses when not
connected or without a transport; otherwise clears the input buffer,
writes the command plus CRLF, accumulates the reply until a terminal token
or timeout, strips it, and applies the `expected` substring check. -/
def send_command (st : Controller) (command : String) (expected : Option String)
    (env : List String) : SendRes :=
  if !st.is_connected || st.serial_conn.isNone then
    { ret := none, st := st, ops := [], events := [] }
  else
    let st1 := clearPending st
    let r := readLoop env ""
    let response_str := pyStrip r.1
    let ret : Option String :=
      match expected with
      | some e => if strContains response_str e then some response_str else none
      | none => some response_str
    { ret := ret, st := st1,
      ops := TOp.resetInput :: TOp.write (command ++ "\r\n") ::
        List.replicate r.2 TOp.read,
      events := [] }

/-! ### `connect`, `disconnect`, monitoring -/

/-- Environment for `connect`: whether `serial.Serial(...)` succeeds, and
the reply chunks for the handshake `AT` command. -/
structure ConnectEnv where
  openOk : Bool
  chunks : List String
deriving DecidableEq, Repr

/-- `SIM808Controller.start_monitoring` (lines 289-296). -/
def start_monitoring (st : Controller) : Controller :=
  if st.monitoring then st
  else { st with monitoring := true, monitor_thread := true }

/-- `SIM808Controller.stop_monitoring` (lines 298-303): clear the flag,
join the thread (bounded, 2 s), drop the handle. -/
def stop_monitoring (st : Controller) : Controller :=
  { st with monitoring := false, monitor_thread := false }

/-- `SIM808Controller.connect` (lines 36-80). On open failure the
exception handler only clears `is_connected` (the `serial_conn` assignment
never happened). After a successful open the handshake
`send_command("AT", expected="OK")` runs; on handshake failure the port is
closed and the handle dropped. -/
def connect (st : Controller) (portArg : Option String) (env : ConnectEnv) :
    Bool × Controller :=
  let st := match portArg with
    | some p => { st with port := some p }
    | none => st
  match st.port with
  | none => (false, st)
  | some _ =>
    if env.openOk then
      let st := { st with serial_conn := some { pending := "", isOpen := true } }
      let r := send_command st "AT" (some "OK") env.chunks
      match r.ret with
      | some _ =>
        let st := { r.st with is_connected := true }
        let st := (send_command st "AT+CLIP=1" none []).st
        (true, start_monitoring st)
      | none =>
        (false, { r.st with serial_conn := none })
    else
      (false, { st with is_connected := false })

/-- `SIM808Controller.disconnect` (lines 82-89). -/
def disconnect (st : Controller) : Controller :=
  let st := stop_monitoring st
  { st with serial_conn := none, is_connected := false }

/-- Transport operations of one iteration of `_monitor_loop`
(lines 305-329): with the loop conditions holding and bytes waiting, the
loop reads them. -/
def monitorIterOps (st : Controller) (dataWaiting : Bool) : List TOp :=
  if st.serial_conn.isSome && st.monitoring && st.is_connected && dataWaiting then
    [TOp.read]
  else []

/-! ### Command API: `dial`, `hangup`, `answer`, `send_dtmf` -/

/-- Result of a call-control command: Python boolean result, post state,
transport operation trace. -/
structure ActionRes where
  ok : Bool
  st : Controller
  ops : List TOp
deriving DecidableEq, Repr

/-- Phone-number sanitization in `dial` (line 159):
`re.sub(r'[^\d+]', '', number)` keeps digits and every `+`. -/
def sanitizePhone (number : String) : String :=
  String.mk (number.toList.filter (fun c => c.isDigit || c == '+'))

/-- `SIM808Controller.dial` (lines 145-167). Only a falsy (empty) input is
rejected before sanitization; the dial command is `ATD<sanitized>;`; on a
response containing `OK` the status becomes `dialing`. -/
def dial (st : Controller) (number : String) (env : List String) : ActionRes :=
  if number = "" then { ok := false, st := st, ops := [] }
  else
    let cmd := "ATD" ++ sanitizePhone number ++ ";"
    let r := send_command st cmd none env
    match r.ret with
    | some resp =>
      if strContains resp "OK" then
        { ok := true, st := { r.st with current_call_status := some "dialing" },
          ops := r.ops }
      else { ok := false, st := r.st, ops := r.ops }
    | none => { ok := false, st := r.st, ops := r.ops }

/-- `SIM808Controller.hangup` (lines 169-181). -/
def hangup (st : Controller) (env : List String) : ActionRes :=
  let r := send_command st "ATH" none env
  match r.ret with
  | some resp =>
    if strContains resp "OK" then
      { ok := true,
        st := { r.st with current_call_status := none, incoming_call_number := none },
        ops := r.ops }
    else { ok := false, st := r.st, ops := r.ops }
  | none => { ok := false, st := r.st, ops := r.ops }

/-- `SIM808Controller.answer` (lines 183-194). -/
def answer (st : Controller) (env : List String) : ActionRes :=
  let r := send_command st "ATA" none env
  match r.ret with
  | some resp =>
    if strContains resp "OK" then
      { ok := true, st := { r.st with current_call_status := some "active" },
        ops := r.ops }
    else { ok := false, st := r.st, ops := r.ops }
  | none => { ok := false, st := r.st, ops := r.ops }

/-- The valid DTMF digit set of `send_dtmf` (line 210). -/
def validDigits : String := "0123456789*#ABCD"

/-- `SIM808Controller.send_dtmf` (lines 196-216). Validation uppercases
the digit, but the issued command `AT+VTS=<digit>` carries the original
character. -/
def send_dtmf (st : Controller) (digit : String) (env : List String) : ActionRes :=
  if digit.length ≠ 1 then { ok := false, st := st, ops := [] }
  else if !(strContains validDigits (String.mk (digit.toList.map Char.toUpper))) then
    { ok := false, st := st, ops := [] }
  else
    let r := send_command st ("AT+VTS=" ++ digit) none env
    { ok := (match r.ret with
        | some resp => strContains resp "OK"
        | none => false),
      st := r.st, ops := r.ops }

/-! ### The `+CLCC` regex
`re.search(r'\+CLCC:\s*(\d+),(\d+),(\d+),(\d+),(\d+)(?:,([^,]+),(\d+))?', s)`.

The regex has no alternation; each `\d+`/`[^,]+` is followed by a
character it can never match (a comma) or by the end of the pattern, so
greedy maximal-munch without backtracking is exactly equivalent, and the
leftmost match is found by trying each start position in order. -/

/-- Captured groups of a `+CLCC` match, as the raw matched substrings. -/
structure ClccRaw where
  idS : List Char
  dirS : List Char
  statS : List Char
  modeS : List Char
  mptyS : List Char
  numS : Option (List Char)
  typS : Option (List Char)
deriving DecidableEq, Repr

/-- Match the literal pattern at the head, returning the rest. -/
def matchLit : List Char → List Char → Option (List Char)
  | [], rest => some rest
  | _ :: _, [] => none
  | p :: ps, c :: rest => if c == p then matchLit ps rest else none

/-- `(\d+)`: one or more digits, greedily. -/
def matchDigits1 (cs : List Char) : Option (List Char × List Char) :=
  if (cs.takeWhile Char.isDigit).isEmpty then none
  else some (cs.takeWhile Char.isDigit, cs.dropWhile Char.isDigit)

/-- Expect one specific character. -/
def expectChar (c : Char) : List Char → Option (List Char)
  | x :: xs => if x == c then some xs else none
  | [] => none

/-- The literal head of the CLCC pattern. -/
def clccPat : List Char := '+' :: "CLCC:".toList

/-- The optional group `(?:,([^,]+),(\d+))?` tried at `r`; `none` means the
group does not match (which is not a failure of the whole pattern). -/
def clccOptNum (r : List Char) : Option (List Char × List Char) :=
  match expectChar ',' r with
  | none => none
  | some r1 =>
    if (r1.takeWhile (fun c => c != ',')).isEmpty then none
    else
      match expectChar ',' (r1.dropWhile (fun c => c != ',')) with
      | none => none
      | some r2 =>
        match matchDigits1 r2 with
        | none => none
        | some (typ, _) => some (r1.takeWhile (fun c => c != ','), typ)

/-- Try the whole CLCC pattern anchored at the head of `cs`. -/
def matchClccAt (cs : List Char) : Option ClccRaw :=
  match matchLit clccPat cs with
  | none => none
  | some r0 =>
    let r1 := r0.dropWhile Char.isWhitespace
    match matchDigits1 r1 with
    | none => none
    | some (idS, r2) =>
      match expectChar ',' r2 with
      | none => none
      | some r3 =>
        match matchDigits1 r3 with
        | none => none
        | some (dirS, r4) =>
          match expectChar ',' r4 with
          | none => none
          | some r5 =>
            match matchDigits1 r5 with
            | none => none
            | some (statS, r6) =>
              match expectChar ',' r6 with
              | none => none
              | some r7 =>
                match matchDigits1 r7 with
                | none => none
                | some (modeS, r8) =>
                  match expectChar ',' r8 with
                  | none => none
                  | some r9 =>
                    match matchDigits1 r9 with
                    | none => none
                    | some (mptyS, r10) =>
                      match clccOptNum r10 with
                      | some (num, typ) =>
                        some { idS := idS, dirS := dirS, statS := statS,
                               modeS := modeS, mptyS := mptyS,
                               numS := some num, typS := some typ }
                      | none =>
                        some { idS := idS, dirS := dirS, statS := statS,
                               modeS := modeS, mptyS := mptyS,
                               numS := none, typS := none }

/-- `re.search` for the CLCC pattern: leftmost match. -/
def searchClccL : List Char → Option ClccRaw
  | [] => none
  | c :: cs =>
    match matchClccAt (c :: cs) with
    | some r => some r
    | none => searchClccL cs

/-- `status_map.get(status, 'unknown')` (lines 240-247 / 371-378). -/
def statusMap (s : List Char) : String :=
  if s = ['0'] then "active"
  else if s = ['1'] then "held"
  else if s = ['2'] then "dialing"
  else if s = ['3'] then "ringing"
  else if s = ['4'] then "incoming"
  else if s = ['5'] then "waiting"
  else "unknown"

/-- `direction_map.get(direction, 'unknown')` (lines 249-252 / 380-383). -/
def directionMap (s : List Char) : String :=
  if s = ['0'] then "outgoing"
  else if s = ['1'] then "incoming"
  else "unknown"

/-- Python `int(...)` on a digit string. -/
def digitsVal (ds : List Char) : Nat :=
  ds.foldl (fun a c => a * 10 + (c.toNat - 48)) 0

/-- Build the call-status dict from a CLCC match (lines 254-261 / 385-392).
The number keeps whatever `([^,]+)` captured, quotes included. -/
def clccToInfo (r : ClccRaw) : CallInfo :=
  { id := digitsVal r.idS,
    direction := directionMap r.dirS,
    status := statusMap r.statS,
    number := r.numS.map String.mk,
    mode := String.mk r.modeS,
    mpty := r.mptyS == ['1'] }

/-- `SIM808Controller.get_call_status` (lines 218-263): issue `AT+CLCC`,
and on a truthy response search it for the CLCC pattern. -/
def get_call_status (st : Controller) (env : List String) :
    Option CallInfo × SendRes :=
  let r := send_command st "AT+CLCC" none env
  match r.ret with
  | none => (none, r)
  | some resp =>
    if resp = "" then (none, r)
    else ((searchClccL resp.toList).map clccToInfo, r)

/-! ### The `+CLIP` regex
`re.search(r'\+CLIP:\s*([^,]+),(\d+)', s)`. Here `\s*` and `[^,]+`
overlap on whitespace, so one step of backtracking matters: when the
maximal whitespace run is followed directly by a comma, the engine gives
one whitespace character back to `([^,]+)`. -/

/-- The literal head of the CLIP pattern. -/
def clipPat : List Char := '+' :: "CLIP:".toList

/-- Try the CLIP pattern anchored at the head of `cs`; returns the
captured number group. -/
def matchClipAt (cs : List Char) : Option (List Char) :=
  match matchLit clipPat cs with
  | none => none
  | some r =>
    let w := r.takeWhile Char.isWhitespace
    let rest := r.dropWhile Char.isWhitespace
    match rest with
    | [] => none
    | c :: rest' =>
      if c == ',' then
        match w.getLast?, matchDigits1 rest' with
        | some wc, some _ => some [wc]
        | _, _ => none
      else
        let num := rest.takeWhile (fun x => x != ',')
        match expectChar ',' (rest.dropWhile (fun x => x != ',')) with
        | none => none
        | some r2 =>
          match matchDigits1 r2 with
          | none => none
          | some _ => some num

/-- `re.search` for the CLIP pattern: leftmost match. -/
def searchClipL : List Char → Option (List Char)
  | [] => none
  | c :: cs =>
    match matchClipAt (c :: cs) with
    | some n => some n
    | none => searchClipL cs

/-- Python `s.strip('"')`: remove leading and trailing quote characters. -/
def stripQuotes (s : List Char) : List Char :=
  ((s.dropWhile (fun c => c == '"')).reverse.dropWhile (fun c => c == '"')).reverse

/-! ### `_process_unsolicited` and callback dispatch -/

/-- The RING branch (lines 341-344). The event payload is the stored
`incoming_call_number` read after the status update. -/
def stepRing (st : Controller) (line : String) : Controller × List DEvent :=
  if line = "RING" then
    let st1 := { st with current_call_status := some "incoming" }
    (st1, [{ kind := EvKind.incoming_call,
             data := EvData.numberData st1.incoming_call_number, snap := st1 }])
  else (st, [])

/-- The +CLIP branch (lines 347-352). -/
def stepClip (st : Controller) (line : String) : Controller × List DEvent :=
  match searchClipL line.toList with
  | some rawNum =>
    let number := String.mk (stripQuotes rawNum)
    let st1 := { st with incoming_call_number := some number,
                         current_call_status := some "incoming" }
    (st1, [{ kind := EvKind.incoming_call,
             data := EvData.numberData (some number), snap := st1 }])
  | none => (st, [])

/-- The NO CARRIER branch (lines 355-358). -/
def stepNoCarrier (st : Controller) (line : String) : Controller × List DEvent :=
  if strContains line "NO CARRIER" then
    let st1 := { st with current_call_status := none, incoming_call_number := none }
    (st1, [{ kind := EvKind.call_ended, data := EvData.emptyData, snap := st1 }])
  else (st, [])

/-- The BUSY branch (lines 361-363). -/
def stepBusy (st : Controller) (line : String) : Controller × List DEvent :=
  if strContains line "BUSY" then
    let st1 := { st with current_call_status := none }
    (st1, [{ kind := EvKind.call_busy, data := EvData.emptyData, snap := st1 }])
  else (st, [])

/-- The +CLCC branch (lines 366-395). -/
def stepClcc (st : Controller) (line : String) : Controller × List DEvent :=
  match searchClccL line.toList with
  | some raw =>
    let info := clccToInfo raw
    let st1 := { st with current_call_status := some info.status }
    (st1, [{ kind := EvKind.call_status, data := EvData.callData info, snap := st1 }])
  | none => (st, [])

/-- `SIM808Controller._process_unsolicited` (lines 331-395): the five
pattern rules evaluated independently in order, each updating the state
and then dispatching its event. Returns the final state and the events in
dispatch order, each carrying the state visible during its dispatch. -/
def processUnsolicited (st : Controller) (line : String) :
    Controller × List DEvent :=
  let a := stepRing st line
  let b := stepClip a.1 line
  let c := stepNoCarrier b.1 line
  let d := stepBusy c.1 line
  let e := stepClcc d.1 line
  (e.1, a.2 ++ b.2 ++ c.2 ++ d.2 ++ e.2)

/-- `SIM808Controller.register_status_callback` (lines 265-274). -/
def register_status_callback (cbs : List (Nat × Bool)) (cb : Nat × Bool) :
    List (Nat × Bool) :=
  if cb ∈ cbs then cbs else cbs ++ [cb]

/-- Outcome of invoking one callback. -/
inductive CbOutcome where
  | ok
  | raised
deriving DecidableEq, Repr

/-- Invoking a callback: the `Bool` flag says whether it raises. -/
def invokeCb (cb : Nat × Bool) : Except String Unit :=
  if cb.2 then Except.error "callback raised" else Except.ok ()

/-- `SIM808Controller._notify_callbacks` (lines 281-287): the `for` loop
with per-callback `try/except`; an error is caught and logged and the
loop continues with the next callback. Returns the invocations made, in
order. -/
def notify_callbacks : List (Nat × Bool) → List (Nat × CbOutcome)
  | [] => []
  | cb :: rest =>
    match invokeCb cb with
    | Except.ok _ => (cb.1, CbOutcome.ok) :: notify_callbacks rest
    | Except.error _ => (cb.1, CbOutcome.raised) :: notify_callbacks rest

/-! ### Auxiliary definitions for the statements -/

/-- A controller in the connected, monitoring state the code intends after
a successful `connect` (used as concrete test state). -/
def connectedCtrl : Controller :=
  { port := some "/dev/ttyUSB0", baudrate := 115200, is_connected := true,
    monitoring := true, monitor_thread := true,
    serial_conn := some { pending := "", isOpen := true },
    current_call_status := none, incoming_call_number := none,
    status_callbacks := [] }

/-- A connected controller with call state present (used to test
`disconnect`). -/
def staleCtrl : Controller :=
  { connectedCtrl with
    current_call_status := some "active",
    incoming_call_number := some "+15551234567" }

/-- Consistency of a dispatched event with the controller state visible
during its callback: the state already reflects the change the event
describes. -/
def eventConsistent (e : DEvent) : Prop :=
  match e.kind with
  | EvKind.incoming_call =>
    e.snap.current_call_status = some "incoming" ∧
    e.data = EvData.numberData e.snap.incoming_call_number
  | EvKind.call_ended =>
    e.snap.current_call_status = none ∧ e.snap.incoming_call_number = none ∧
    e.data = EvData.emptyData
  | EvKind.call_busy =>
    e.snap.current_call_status = none ∧ e.data = EvData.emptyData
  | EvKind.call_status =>
    ∃ c, e.data = EvData.callData c ∧ e.snap.current_call_status = some c.status

/-- A well-formed CLCC line
`+CLCC: <id>,<dir>,<stat>,<mode>,<mpty>[,<number>,<type>]` assembled from
its fields. -/
def mkClccLine (idS dirS statS modeS mptyS : List Char)
    (tail : Option (List Char × List Char)) : List Char :=
  clccPat ++ ' ' :: (idS ++ ',' :: (dirS ++ ',' :: (statS ++ ',' :: (modeS ++ ',' ::
    (mptyS ++
      match tail with
      | none => []
      | some (num, typ) => ',' :: (num ++ ',' :: typ))))))

/-- A nonempty all-digit string (what `(\d+)` captures). -/
abbrev digitStr (s : List Char) : Prop :=
  s ≠ [] ∧ ∀ c ∈ s, c.isDigit = true

/-! ## Helper lemmas -/

lemma notify_callbacks_fst (cbs : List (Nat × Bool)) :
    (notify_callbacks cbs).map Prod.fst = cbs.map Prod.fst := by
  induction cbs with
  | nil => rfl
  | cons c rest ih =>
    cases hc : c.2 <;> simp [notify_callbacks, invokeCb, hc, ih]

/-! ## Claims -/

/-- C1: the claim says `connect(port)` succeeds iff the handshake `AT`
elicits `OK`. In the code, `send_command` refuses to run (returns `None`)
whenever `is_connected` is false, and `connect` sets `is_connected` only
after that very handshake, so from any disconnected state `connect`
always fails — even when the environment would answer the handshake with
`OK` — and (when the open succeeded) closes the just-opened transport. -/
theorem connect_from_disconnected_always_fails (st : Controller) (p : String)
    (env : ConnectEnv) (h : st.is_connected = false) :
    (connect st (some p) env).1 = false ∧
    ((connect st (some p) env).2).is_connected = false ∧
    (env.openOk = true → ((connect st (some p) env).2).serial_conn = none) := by
  cases env with
  | mk openOk chunks =>
    cases openOk with
    | false => simp [connect, h]
    | true => simp [connect, send_command, h]

/-- C1 witness: a freshly constructed controller, a successful port open,
and a modem that replies `OK` to `AT`; `connect` still returns failure. -/
theorem connect_from_disconnected_always_fails_witness :
    (initController none).is_connected = false ∧
    (connect (initController none) (some "/dev/ttyUSB0")
      { openOk := true, chunks := ["AT\r\nOK\r\n"] }).1 = false :=
  ⟨by decide,
    (connect_from_disconnected_always_fails (initController none) "/dev/ttyUSB0"
      { openOk := true, chunks := ["AT\r\nOK\r\n"] } (by decide)).1⟩

/-- C3: the claim says at most one execution context ever reads from the
transport. In the code, in a connected monitoring state the command path
(`send_command`, lines 121-127) performs transport reads while the
background monitor loop (`_monitor_loop`, lines 314-315) also performs
reads, with no mutual exclusion between them. -/
theorem two_readers_both_read :
    TOp.read ∈
      (send_command connectedCtrl "AT+CLCC" none ["+CLCC: 1,0,0,0,0\r\nOK\r\n"]).ops ∧
    TOp.read ∈ monitorIterOps connectedCtrl true ∧
    connectedCtrl.monitoring = true ∧ connectedCtrl.is_connected = true := by
  decide

/-- C8 counterexample: `disconnect` does not clear the call-state fields;
from a state with an active call and a stored number, both survive
disconnection, contradicting the claim's "Call State cleared". -/
theorem disconnect_keeps_call_state :
    (disconnect staleCtrl).current_call_status = some "active" ∧
    (disconnect staleCtrl).incoming_call_number = some "+15551234567" ∧
    ¬ ((disconnect staleCtrl).current_call_status = none ∧
       (disconnect staleCtrl).incoming_call_number = none) := by
  decide

/-- C8 (amended): `disconnect()` always leaves the controller
disconnected with the monitor loop stopped and its thread handle dropped
(the join is bounded in the code), and the transport closed and the
handle cleared; the call-state fields are NOT cleared (they keep their
previous values); `disconnect` is idempotent and safe to call when
already disconnected. -/
theorem disconnect_amended (st : Controller) :
    (disconnect st).is_connected = false ∧
    (disconnect st).monitoring = false ∧
    (disconnect st).monitor_thread = false ∧
    (disconnect st).serial_conn = none ∧
    (disconnect st).current_call_status = st.current_call_status ∧
    (disconnect st).incoming_call_number = st.incoming_call_number ∧
    disconnect (disconnect st) = disconnect st := by
  simp [disconnect, stop_monitoring]

/-- C9: for every dispatched event each registered observer is invoked
exactly once and in registration order (the invocations of
`_notify_callbacks` are exactly the registry, in order, even when some
callbacks raise — a raising callback is caught and the loop continues),
and registering an already-registered observer is a no-op. -/
theorem callbacks_ordered_isolated_idempotent (cbs : List (Nat × Bool))
    (cb : Nat × Bool) :
    register_status_callback (register_status_callback cbs cb) cb =
      register_status_callback cbs cb ∧
    (notify_callbacks cbs).map Prod.fst = cbs.map Prod.fst := by
  constructor
  · by_cases h : cb ∈ cbs
    · simp [register_status_callback, h]
    · simp [register_status_callback, h]
  · exact notify_callbacks_fst cbs

/-- C2 counterexample: on a connected controller with no
`expectedSubstring`, a reply of `ERROR` makes `send_command` return the
accumulated text `"ERROR"` — a non-`None` (success-typed) value — where
the claim requires failure. -/
theorem send_command_error_is_not_failure :
    (send_command connectedCtrl "ATH" none ["\r\nERROR\r\n"]).ret = some "ERROR" ∧
    (send_command connectedCtrl "ATH" none ["\r\nERROR\r\n"]).ret ≠ none := by
  decide

/-- C2 (amended): on a connected controller, when `expectedSubstring` is
not supplied, `send_command` returns the accumulated stripped response
text for every outcome — including `ERROR` replies and timeouts (an
empty-data timeout yields the empty string); failure (`None`) occurs
exactly when `expectedSubstring` is supplied and absent from that text.
In all cases the connection stays connected with its transport, so the
next command is accepted. -/
theorem send_command_amended (st : Controller) (sp : SerialPort)
    (cmd e : String) (env : List String)
    (hc : st.is_connected = true) (hs : st.serial_conn = some sp) :
    (send_command st cmd none env).ret = some (pyStrip (readLoop env "").1) ∧
    ((send_command st cmd (some e) env).ret =
      if strContains (pyStrip (readLoop env "").1) e
      then some (pyStrip (readLoop env "").1) else none) ∧
    (send_command st cmd (some e) env).st.is_connected = true ∧
    (send_command st cmd (some e) env).st.serial_conn.isSome = true := by
  simp [send_command, clearPending, hc, hs]

/-- C2 witness: a connected controller, command `AT+CLCC` with expected
substring `OK` and a prompt `OK` reply. -/
theorem send_command_amended_witness :
    connectedCtrl.is_connected = true ∧
    (send_command connectedCtrl "AT+CLCC" none ["OK\r\n"]).ret =
      some (pyStrip (readLoop ["OK\r\n"] "").1) :=
  ⟨by decide,
    (send_command_amended connectedCtrl { pending := "", isOpen := true }
      "AT+CLCC" "OK" ["OK\r\n"] (by decide) (by decide)).1⟩

/-- C10: on a connected controller `send_command` clears the transport's
input buffer (first operation, before the write): whatever bytes were
pending — including unsolicited notification lines — are discarded, the
result and post-state are independent of them, and no event is dispatched
to observers during the call. -/
theorem send_command_discards_pending (st : Controller) (sp : SerialPort)
    (cmd : String) (exp : Option String) (env : List String) (p : String)
    (hc : st.is_connected = true) (hs : st.serial_conn = some sp) :
    send_command { st with serial_conn := some { sp with pending := p } } cmd exp env =
      send_command { st with serial_conn := some { sp with pending := "" } } cmd exp env ∧
    (send_command st cmd exp env).events = [] ∧
    (send_command st cmd exp env).ops =
      TOp.resetInput :: TOp.write (cmd ++ "\r\n") ::
        List.replicate (readLoop env "").2 TOp.read ∧
    (send_command st cmd exp env).st.serial_conn = some { sp with pending := "" } := by
  simp [send_command, clearPending, hc, hs]

/-- C10 witness: pending unsolicited `RING` bytes are discarded by a
`dial`-style command send. -/
theorem send_command_discards_pending_witness :
    connectedCtrl.is_connected = true ∧
    send_command
        { connectedCtrl with
          serial_conn := some { pending := "RING\r\n", isOpen := true } }
        "ATD123;" none ["OK\r\n"] =
      send_command
        { connectedCtrl with
          serial_conn := some { pending := "", isOpen := true } }
        "ATD123;" none ["OK\r\n"] :=
  ⟨by decide,
    (send_command_discards_pending connectedCtrl { pending := "", isOpen := true }
      "ATD123;" none ["OK\r\n"] "RING\r\n" (by decide) (by decide)).1⟩

/-- C4 counterexample: sanitization keeps every `+`, not only a leading
one (`"2+2"` is dialed as `ATD2+2;`, not `ATD22;`), and a non-empty input
whose sanitized result is empty (`"abc"`) is not rejected: the command
`ATD;` is written to the transport. -/
theorem dial_sanitize_counterexample :
    (dial connectedCtrl "2+2" ["OK\r\n"]).ops =
      [TOp.resetInput, TOp.write "ATD2+2;\r\n", TOp.read] ∧
    sanitizePhone "2+2" ≠ "22" ∧
    (dial connectedCtrl "abc" ["OK\r\n"]).ops ≠ [] := by
  decide

/-- C4 (amended): on a connected controller, `dial(number)` removes every
character except digits and `+` signs (a `+` is kept wherever it occurs)
before issuing `ATD<sanitized>;`; only the empty input string is rejected
without writing to the transport (a non-empty input sanitizing to empty
still writes `ATD;`); on an `OK` outcome the call status becomes
`dialing`; and `dial("+1 (555) 123-4567")` dials `+15551234567`. -/
theorem dial_amended (st : Controller) (sp : SerialPort) (number : String)
    (env : List String)
    (hc : st.is_connected = true) (hs : st.serial_conn = some sp) :
    (number = "" → dial st number env = { ok := false, st := st, ops := [] }) ∧
    (number ≠ "" →
      TOp.write ("ATD" ++ String.mk (number.toList.filter
          (fun c => c.isDigit || c == '+')) ++ ";" ++ "\r\n") ∈ (dial st number env).ops) ∧
    ((dial st number env).ok = true →
      (dial st number env).st.current_call_status = some "dialing") ∧
    sanitizePhone "+1 (555) 123-4567" = "+15551234567" := by
  refine ⟨fun h => by simp [dial, h], fun h => ?_, fun h => ?_, by decide⟩
  · simp only [dial, sanitizePhone, h, if_false]
    simp [send_command, hc, hs]
    split <;> simp [String.toList]
  · revert h
    simp only [dial]
    split
    · intro h; exact absurd h (by simp)
    · simp [send_command, hc, hs]
      split <;> simp

/-- C4 witness: dialing the example number writes `ATD+15551234567;`. -/
theorem dial_amended_witness :
    ("+1 (555) 123-4567" : String) ≠ "" ∧
    TOp.write ("ATD" ++ String.mk ("+1 (555) 123-4567".toList.filter
        (fun c => c.isDigit || c == '+')) ++ ";" ++ "\r\n") ∈
      (dial connectedCtrl "+1 (555) 123-4567" ["OK\r\n"]).ops :=
  ⟨by decide,
    (dial_amended connectedCtrl { pending := "", isOpen := true }
        "+1 (555) 123-4567" ["OK\r\n"] (by decide) (by decide)).2.1 (by decide)⟩

/-- C6 counterexample: `send_dtmf("a")` is accepted, but the issued
command carries the original lowercase character (`AT+VTS=a`), not a
normalized uppercase one — the claim's "normalized before the DTMF
command is issued" fails. -/
theorem send_dtmf_not_normalized :
    (send_dtmf connectedCtrl "a" ["OK\r\n"]).ok = true ∧
    TOp.write "AT+VTS=a\r\n" ∈ (send_dtmf connectedCtrl "a" ["OK\r\n"]).ops ∧
    TOp.write "AT+VTS=A\r\n" ∉ (send_dtmf connectedCtrl "a" ["OK\r\n"]).ops := by
  decide

/-- C6 (amended): `send_dtmf(digit)` accepts exactly the one-character
strings whose uppercased form lies in `0-9 * # A-D`; every other input
(empty, multi-character, or out-of-set) is rejected without any transport
operation; an accepted digit is sent as `AT+VTS=<digit>` with the
original (unnormalized) character. -/
theorem send_dtmf_amended (st : Controller) (sp : SerialPort) (digit : String)
    (env : List String)
    (hc : st.is_connected = true) (hs : st.serial_conn = some sp) :
    (digit.length ≠ 1 → send_dtmf st digit env = { ok := false, st := st, ops := [] }) ∧
    (strContains validDigits (String.mk (digit.toList.map Char.toUpper)) = false →
      send_dtmf st digit env = { ok := false, st := st, ops := [] }) ∧
    (digit.length = 1 →
      strContains validDigits (String.mk (digit.toList.map Char.toUpper)) = true →
      (send_dtmf st digit env).ops =
        TOp.resetInput :: TOp.write ("AT+VTS=" ++ digit ++ "\r\n") ::
          List.replicate (readLoop env "").2 TOp.read) := by
  refine ⟨fun h => by simp [send_dtmf, h], fun h => ?_, fun h1 h2 => ?_⟩
  · simp only [String.toList] at h
    by_cases h1 : digit.length = 1
    · simp [send_dtmf, h1, h]
    · simp [send_dtmf, h1]
  · simp only [String.toList] at h2
    simp [send_dtmf, h1, h2, send_command, hc, hs]

/-- C6 witness: `"x"` has length 1 but uppercases outside the valid set,
so it is rejected with no transport contact. -/
theorem send_dtmf_amended_witness :
    strContains validDigits (String.mk ("x".toList.map Char.toUpper)) = false ∧
    send_dtmf connectedCtrl "x" ["OK\r\n"] =
      { ok := false, st := connectedCtrl, ops := [] } :=
  ⟨by decide,
    (send_dtmf_amended connectedCtrl { pending := "", isOpen := true }
      "x" ["OK\r\n"] (by decide) (by decide)).2.1 (by decide)⟩

lemma stepRing_consistent (st : Controller) (line : String) :
    ∀ e ∈ (stepRing st line).2, eventConsistent e := by
  intro e he
  unfold stepRing at he
  split at he
  · simp only [List.mem_singleton] at he
    subst he
    exact ⟨rfl, rfl⟩
  · simp at he

lemma stepClip_consistent (st : Controller) (line : String) :
    ∀ e ∈ (stepClip st line).2, eventConsistent e := by
  intro e he
  unfold stepClip at he
  split at he
  · simp only [List.mem_singleton] at he
    subst he
    exact ⟨rfl, rfl⟩
  · simp at he

lemma stepNoCarrier_consistent (st : Controller) (line : String) :
    ∀ e ∈ (stepNoCarrier st line).2, eventConsistent e := by
  intro e he
  unfold stepNoCarrier at he
  split at he
  · simp only [List.mem_singleton] at he
    subst he
    exact ⟨rfl, rfl, rfl⟩
  · simp at he

lemma stepBusy_consistent (st : Controller) (line : String) :
    ∀ e ∈ (stepBusy st line).2, eventConsistent e := by
  intro e he
  unfold stepBusy at he
  split at he
  · simp only [List.mem_singleton] at he
    subst he
    exact ⟨rfl, rfl⟩
  · simp at he

lemma stepClcc_consistent (st : Controller) (line : String) :
    ∀ e ∈ (stepClcc st line).2, eventConsistent e := by
  intro e he
  unfold stepClcc at he
  split at he
  · simp only [List.mem_singleton] at he
    subst he
    exact ⟨_, rfl, rfl⟩
  · simp at he

/-- C7: for every line handled by `_process_unsolicited`, each dispatched
event sees a controller state that already reflects the change the event
describes: an `incoming_call` event sees status `incoming` and carries the
stored number, `call_ended` sees both status and number cleared,
`call_busy` sees status cleared, and `call_status` sees the parsed status
installed — the state is mutated before `_notify_callbacks` runs. -/
theorem unsolicited_state_updated_before_dispatch (st : Controller)
    (line : String) :
    ∀ e ∈ (processUnsolicited st line).2, eventConsistent e := by
  intro e he
  unfold processUnsolicited at he
  simp only [List.append_assoc, List.mem_append] at he
  rcases he with h | h | h | h | h
  · exact stepRing_consistent _ _ _ h
  · exact stepClip_consistent _ _ _ h
  · exact stepNoCarrier_consistent _ _ _ h
  · exact stepBusy_consistent _ _ _ h
  · exact stepClcc_consistent _ _ _ h

/-- C7 witness: processing the line `RING` on a fresh controller
dispatches an `incoming_call` event whose snapshot already shows status
`incoming`. -/
theorem unsolicited_state_updated_before_dispatch_witness :
    eventConsistent
      { kind := EvKind.incoming_call, data := EvData.numberData none,
        snap := { initController none with current_call_status := some "incoming" } } :=
  unsolicited_state_updated_before_dispatch (initController none) "RING"
    { kind := EvKind.incoming_call, data := EvData.numberData none,
      snap := { initController none with current_call_status := some "incoming" } }
    (by decide)

lemma ws_not_digit {c : Char} (h : c.isWhitespace = true) : c.isDigit = false := by
  unfold Char.isWhitespace at h
  simp only [Bool.or_eq_true, decide_eq_true_eq] at h
  rcases h with ((h | h) | h) | h <;> subst h <;> decide

lemma digit_not_ws {c : Char} (h : c.isDigit = true) : c.isWhitespace = false := by
  cases hw : c.isWhitespace with
  | false => rfl
  | true => rw [ws_not_digit hw] at h; exact absurd h (by simp)

lemma matchLit_append (pat rest : List Char) :
    matchLit pat (pat ++ rest) = some rest := by
  induction pat with
  | nil => rfl
  | cons p ps ih => simp [matchLit, ih]

lemma takeWhile_all_true {p : Char → Bool} (l : List Char)
    (h : ∀ x ∈ l, p x = true) :
    l.takeWhile p = l ∧ l.dropWhile p = [] := by
  induction l with
  | nil => exact ⟨rfl, rfl⟩
  | cons c cs ih =>
    have hc := h c (List.mem_cons_self c cs)
    have := ih (fun x hx => h x (List.mem_cons_of_mem c hx))
    simp [List.takeWhile_cons, List.dropWhile_cons, hc, this.1, this.2]

lemma takeWhile_stop {p : Char → Bool} (l : List Char) (c : Char) (r : List Char)
    (hl : ∀ x ∈ l, p x = true) (hc : p c = false) :
    (l ++ c :: r).takeWhile p = l ∧ (l ++ c :: r).dropWhile p = c :: r := by
  induction l with
  | nil => simp [List.takeWhile_cons, List.dropWhile_cons, hc]
  | cons a l ih =>
    have ha := hl a (List.mem_cons_self a l)
    have := ih (fun x hx => hl x (List.mem_cons_of_mem a hx))
    simp [List.takeWhile_cons, List.dropWhile_cons, ha, this.1, this.2]

lemma matchDigits1_comma (ds r : List Char) (hne : ds ≠ [])
    (hd : ∀ c ∈ ds, c.isDigit = true) :
    matchDigits1 (ds ++ ',' :: r) = some (ds, ',' :: r) := by
  have h := takeWhile_stop ds ',' r hd (by decide)
  unfold matchDigits1
  rw [h.1, h.2]
  cases ds with
  | nil => exact absurd rfl hne
  | cons a l => rfl

lemma matchDigits1_all (ds : List Char) (hne : ds ≠ [])
    (hd : ∀ c ∈ ds, c.isDigit = true) :
    matchDigits1 ds = some (ds, []) := by
  have h := takeWhile_all_true ds hd
  unfold matchDigits1
  rw [h.1, h.2]
  cases ds with
  | nil => exact absurd rfl hne
  | cons a l => rfl

lemma expectChar_comma (r : List Char) : expectChar ',' (',' :: r) = some r := by
  simp [expectChar]

lemma dropWhile_ws_digit_head (ds r : List Char) (hne : ds ≠ [])
    (hd : ∀ c ∈ ds, c.isDigit = true) :
    (' ' :: (ds ++ r)).dropWhile Char.isWhitespace = ds ++ r := by
  cases ds with
  | nil => exact absurd rfl hne
  | cons d t =>
    have hdg : d.isDigit = true := hd d (List.mem_cons_self d t)
    have h1 : Char.isWhitespace ' ' = true := by decide
    have h2 : Char.isWhitespace d = false := digit_not_ws hdg
    simp [List.dropWhile_cons, h1, h2]

lemma clccOptNum_nil : clccOptNum [] = none := rfl

lemma clccOptNum_pair (num typ : List Char) (hnum : num ≠ []) (hc : ',' ∉ num)
    (htne : typ ≠ []) (htd : ∀ c ∈ typ, c.isDigit = true) :
    clccOptNum (',' :: (num ++ ',' :: typ)) = some (num, typ) := by
  have hall : ∀ x ∈ num, (x != ',') = true := by
    intro x hx
    simp only [bne_iff_ne, ne_eq]
    intro hxe
    exact hc (hxe ▸ hx)
  have h := takeWhile_stop (p := fun c => c != ',') num ',' typ hall (by decide)
  simp only [clccOptNum, expectChar_comma, h.1, h.2,
    matchDigits1_all typ htne htd]
  cases num with
  | nil => exact absurd rfl hnum
  | cons a l => rfl

lemma matchClccAt_mkLine_none (idS dirS statS modeS mptyS : List Char)
    (hid : digitStr idS) (hdir : digitStr dirS) (hstat : digitStr statS)
    (hmode : digitStr modeS) (hmpty : digitStr mptyS) :
    matchClccAt (mkClccLine idS dirS statS modeS mptyS none) =
      some { idS := idS, dirS := dirS, statS := statS, modeS := modeS,
             mptyS := mptyS, numS := none, typS := none } := by
  obtain ⟨hid1, hid2⟩ := hid
  obtain ⟨hdir1, hdir2⟩ := hdir
  obtain ⟨hstat1, hstat2⟩ := hstat
  obtain ⟨hmode1, hmode2⟩ := hmode
  obtain ⟨hmpty1, hmpty2⟩ := hmpty
  have hline : mkClccLine idS dirS statS modeS mptyS none =
      clccPat ++ ' ' :: (idS ++ ',' :: (dirS ++ ',' :: (statS ++ ',' ::
        (modeS ++ ',' :: mptyS)))) := by
    simp [mkClccLine]
  have h0 := matchLit_append clccPat
    (' ' :: (idS ++ ',' :: (dirS ++ ',' :: (statS ++ ',' ::
      (modeS ++ ',' :: mptyS)))))
  have h1 := dropWhile_ws_digit_head idS
    (',' :: (dirS ++ ',' :: (statS ++ ',' :: (modeS ++ ',' :: mptyS)))) hid1 hid2
  have h2 := matchDigits1_comma idS
    (dirS ++ ',' :: (statS ++ ',' :: (modeS ++ ',' :: mptyS))) hid1 hid2
  have h3 := matchDigits1_comma dirS
    (statS ++ ',' :: (modeS ++ ',' :: mptyS)) hdir1 hdir2
  have h4 := matchDigits1_comma statS (modeS ++ ',' :: mptyS) hstat1 hstat2
  have h5 := matchDigits1_comma modeS mptyS hmode1 hmode2
  have h6 := matchDigits1_all mptyS hmpty1 hmpty2
  rw [hline]
  simp only [matchClccAt, h0, h1, h2, h3, h4, h5, h6, expectChar_comma,
    clccOptNum_nil]

lemma matchClccAt_mkLine_some (idS dirS statS modeS mptyS num typ : List Char)
    (hid : digitStr idS) (hdir : digitStr dirS) (hstat : digitStr statS)
    (hmode : digitStr modeS) (hmpty : digitStr mptyS)
    (hnum : num ≠ []) (hcomma : ',' ∉ num) (htyp : digitStr typ) :
    matchClccAt (mkClccLine idS dirS statS modeS mptyS (some (num, typ))) =
      some { idS := idS, dirS := dirS, statS := statS, modeS := modeS,
             mptyS := mptyS, numS := some num, typS := some typ } := by
  obtain ⟨hid1, hid2⟩ := hid
  obtain ⟨hdir1, hdir2⟩ := hdir
  obtain ⟨hstat1, hstat2⟩ := hstat
  obtain ⟨hmode1, hmode2⟩ := hmode
  obtain ⟨hmpty1, hmpty2⟩ := hmpty
  obtain ⟨htyp1, htyp2⟩ := htyp
  have hline : mkClccLine idS dirS statS modeS mptyS (some (num, typ)) =
      clccPat ++ ' ' :: (idS ++ ',' :: (dirS ++ ',' :: (statS ++ ',' ::
        (modeS ++ ',' :: (mptyS ++ ',' :: (num ++ ',' :: typ)))))) := by
    simp [mkClccLine]
  have h0 := matchLit_append clccPat
    (' ' :: (idS ++ ',' :: (dirS ++ ',' :: (statS ++ ',' ::
      (modeS ++ ',' :: (mptyS ++ ',' :: (num ++ ',' :: typ)))))))
  have h1 := dropWhile_ws_digit_head idS
    (',' :: (dirS ++ ',' :: (statS ++ ',' ::
      (modeS ++ ',' :: (mptyS ++ ',' :: (num ++ ',' :: typ)))))) hid1 hid2
  have h2 := matchDigits1_comma idS
    (dirS ++ ',' :: (statS ++ ',' ::
      (modeS ++ ',' :: (mptyS ++ ',' :: (num ++ ',' :: typ))))) hid1 hid2
  have h3 := matchDigits1_comma dirS
    (statS ++ ',' :: (modeS ++ ',' :: (mptyS ++ ',' :: (num ++ ',' :: typ))))
    hdir1 hdir2
  have h4 := matchDigits1_comma statS
    (modeS ++ ',' :: (mptyS ++ ',' :: (num ++ ',' :: typ))) hstat1 hstat2
  have h5 := matchDigits1_comma modeS
    (mptyS ++ ',' :: (num ++ ',' :: typ)) hmode1 hmode2
  have h6 := matchDigits1_comma mptyS (num ++ ',' :: typ) hmpty1 hmpty2
  have h7 := clccOptNum_pair num typ hnum hcomma htyp1 htyp2
  rw [hline]
  simp only [matchClccAt, h0, h1, h2, h3, h4, h5, h6, h7, expectChar_comma]

lemma searchClccL_of_head (l : List Char) (raw : ClccRaw)
    (h : matchClccAt l = some raw) : searchClccL l = some raw := by
  cases l with
  | nil => simp [matchClccAt, clccPat, matchLit] at h
  | cons c cs => simp [searchClccL, h]

/-- C5 counterexample: the concrete line from the claim,
`+CLCC: 1,0,0,0,0,"+15551234567",129`, parses (via `get_call_status` on a
connected controller) with status `active`, direction `outgoing` and
`mpty = false` as claimed — but the number field keeps its surrounding
quotes (`"+15551234567"` with quotes), since the code never strips quotes
in the CLCC path, contradicting "without surrounding quotes". -/
theorem clcc_number_keeps_quotes :
    (get_call_status connectedCtrl
        ["+CLCC: 1,0,0,0,0,\"+15551234567\",129\r\nOK\r\n"]).1 =
      some { id := 1, direction := "outgoing", status := "active",
             number := some "\"+15551234567\"", mode := "0", mpty := false } ∧
    some ("\"+15551234567\"" : String) ≠ some "+15551234567" := by
  decide

/-- C5 (amended): parsing a well-formed CLCC line is total and
deterministic — for any nonempty digit strings in the five numeric fields
the match succeeds and captures exactly those fields, both with and
without the optional `(number,type)` pair; direction `0` maps to
`outgoing` and `1` to `incoming`; status `0..5` map to `active`, `held`,
`dialing`, `ringing`, `incoming`, `waiting`; any other captured code maps
to `unknown` rather than failing. The captured number, however, is kept
verbatim, surrounding quotes included. -/
theorem clcc_parsing_total (idS dirS statS modeS mptyS num typ : List Char)
    (hid : digitStr idS) (hdir : digitStr dirS) (hstat : digitStr statS)
    (hmode : digitStr modeS) (hmpty : digitStr mptyS)
    (hnum : num ≠ []) (hcomma : ',' ∉ num) (htyp : digitStr typ) :
    (searchClccL (mkClccLine idS dirS statS modeS mptyS none) =
      some { idS := idS, dirS := dirS, statS := statS, modeS := modeS,
             mptyS := mptyS, numS := none, typS := none }) ∧
    (searchClccL (mkClccLine idS dirS statS modeS mptyS (some (num, typ))) =
      some { idS := idS, dirS := dirS, statS := statS, modeS := modeS,
             mptyS := mptyS, numS := some num, typS := some typ }) ∧
    ((clccToInfo ⟨idS, dirS, statS, modeS, mptyS, some num, some typ⟩).number =
      some (String.mk num)) ∧
    statusMap ['0'] = "active" ∧ statusMap ['1'] = "held" ∧
    statusMap ['2'] = "dialing" ∧ statusMap ['3'] = "ringing" ∧
    statusMap ['4'] = "incoming" ∧ statusMap ['5'] = "waiting" ∧
    directionMap ['0'] = "outgoing" ∧ directionMap ['1'] = "incoming" ∧
    (statusMap statS = "unknown" ↔
      statS ∉ [['0'], ['1'], ['2'], ['3'], ['4'], ['5']]) ∧
    (directionMap dirS = "unknown" ↔ dirS ∉ [['0'], ['1']]) := by
  refine ⟨searchClccL_of_head _ _
      (matchClccAt_mkLine_none idS dirS statS modeS mptyS
        hid hdir hstat hmode hmpty),
    searchClccL_of_head _ _
      (matchClccAt_mkLine_some idS dirS statS modeS mptyS num typ
        hid hdir hstat hmode hmpty hnum hcomma htyp),
    rfl, rfl, rfl, rfl, rfl, rfl, rfl, rfl, rfl, ?_, ?_⟩
  · unfold statusMap
    split_ifs with h1 h2 h3 h4 h5 h6 <;> simp_all
  · unfold directionMap
    split_ifs with h1 h2 <;> simp_all

/-- C5 witness: a well-formed line with id `7`, direction `1`, the
unrecognized status code `9`, and number `"+155"`, parses totally with
status `unknown`. -/
theorem clcc_parsing_total_witness :
    searchClccL (mkClccLine ['7'] ['1'] ['9'] ['0'] ['1']
        (some ("\"+155\"".toList, ['1', '2', '9']))) =
      some { idS := ['7'], dirS := ['1'], statS := ['9'], modeS := ['0'],
             mptyS := ['1'], numS := some ("\"+155\"".toList),
             typS := some ['1', '2', '9'] } :=
  (clcc_parsing_total ['7'] ['1'] ['9'] ['0'] ['1'] ("\"+155\"".toList)
      ['1', '2', '9'] (by decide) (by decide) (by decide) (by decide)
      (by decide) (by decide) (by decide) (by decide)).2.1
